import Mathlib

/-!
Verification of the OHCA Sodium Bicarbonate ITE predictor
(`streamlit_app.py`): a shallow embedding of the script's data flow —
artifact loading, form input collection, record assembly and column
reindexing, the imputation/inference pipeline, and the tertile-cutoff
classification of the predicted individualized treatment effect (ITE) —
together with theorems about the spec's testable properties.

Real scalars (Python floats) are modelled as rationals (`ℚ`); external
opaque calls (the joblib artifact loads, the imputer's `transform`, the
model's `effect`) are modelled as parameters returning `Except String _`,
mirroring the fact that each of them may raise an exception carrying a
message.
-/

namespace ITEApp

/-! ### Tertile cutoffs and recommendation classification -/

/-- The three recommendation buckets rendered by the result panel
(`st.success` / `st.error` / `st.warning` branches, lines 143-151). -/
inductive Recommendation where
  | giveSodiumBicarbonate
  | doNotGiveSodiumBicarbonate
  | noSignificantDifference
deriving DecidableEq, Repr

/-- The classification of a predicted ITE against the lower and upper
tertile bounds, following the `if ite_pred > upper_bound / elif ite_pred <
lower_bound / else` chain at lines 143-151 of `streamlit_app.py`. -/
def classify (ite lowerBound upperBound : ℚ) : Recommendation :=
  if ite > upperBound then Recommendation.giveSodiumBicarbonate
  else if ite < lowerBound then Recommendation.doNotGiveSodiumBicarbonate
  else Recommendation.noSignificantDifference

/-- The four-element ITE tertile cutoff sequence loaded from
`ite_tertile_cutoffs.joblib`; field `cI` is `cutoffs[I]` in the script. -/
structure Cutoffs where
  c0 : ℚ
  c1 : ℚ
  c2 : ℚ
  c3 : ℚ
deriving DecidableEq, Repr

/-- The cutoff values recorded in the source comment at line 134:
`[-0.27, -0.04, 0.06, 0.25]`. -/
def shippedCutoffs : Cutoffs :=
  ⟨mkRat (-27) 100, mkRat (-4) 100, mkRat 6 100, mkRat 25 100⟩

/-! ### Fixed-point decimal formatting (Python `f"{x:.Nf}"`) -/

/-- Round the fraction `n / d` (with `d > 0`, not necessarily in lowest
terms) to the nearest integer, ties to even — the rounding used by
Python's fixed-point string formatting.  `f` is the floor of `n / d` and
`r2 = 2 * (n - f * d)` compares twice the remainder against `d`. -/
def roundHalfEvenFrac (n d : ℤ) : ℤ :=
  let f : ℤ := Int.fdiv n d
  let r2 : ℤ := 2 * (n - f * d)
  if r2 < d then f
  else if d < r2 then f + 1
  else if f % 2 = 0 then f else f + 1

/-- Left-pad a string with zeros to width `w`. -/
def padZeros (w : Nat) (s : String) : String :=
  String.mk (List.replicate (w - s.length) '0') ++ s

/-- Fixed-point decimal formatting with `prec` digits after the point,
modelling Python's `f"{x:.1f}"` / `f"{x:.2f}"` format specifiers over
exact rationals: round `q * 10 ^ prec` (computed on the numerator so that
the fraction need not be re-reduced) half-to-even, then print the integer
part, a point, and the zero-padded fractional digits, with a leading
minus sign for negative results. -/
def fmtFixed (prec : Nat) (q : ℚ) : String :=
  let n : ℤ := roundHalfEvenFrac (q.num * ((10 ^ prec : ℕ) : ℤ)) (q.den : ℤ)
  let sign : String := if n < 0 then "-" else ""
  sign ++ toString (n.natAbs / 10 ^ prec) ++ "." ++ padZeros prec (toString (n.natAbs % 10 ^ prec))

/-! ### The rendered result panel -/

/-- What the result panel renders for one prediction: the metric string
`f"{ite_percent:.2f}%"` (line 131), the recommendation bucket, and the
threshold markdown line of the taken branch (lines 143-151). -/
structure Rendered where
  metric : String
  bucket : Recommendation
  message : String
deriving DecidableEq, Repr

/-- The result panel as a function of the predicted ITE and the loaded
cutoffs: `lower_bound = cutoffs[1]`, `upper_bound = cutoffs[2]`
(lines 139-140), then the `if/elif/else` at lines 143-151 picks the
bucket and interpolates the bounds (times 100, one decimal) into the
markdown line; the metric shows `ite_pred * 100` to two decimals. -/
def renderResult (ite : ℚ) (cutoffs : Cutoffs) : Rendered :=
  if ite > cutoffs.c2 then
    ⟨fmtFixed 2 (ite * 100) ++ "%", Recommendation.giveSodiumBicarbonate,
      "ITE > " ++ fmtFixed 1 (cutoffs.c2 * 100) ++ "%"⟩
  else if ite < cutoffs.c1 then
    ⟨fmtFixed 2 (ite * 100) ++ "%", Recommendation.doNotGiveSodiumBicarbonate,
      "ITE < " ++ fmtFixed 1 (cutoffs.c1 * 100) ++ "%"⟩
  else
    ⟨fmtFixed 2 (ite * 100) ++ "%", Recommendation.noSignificantDifference,
      fmtFixed 1 (cutoffs.c1 * 100) ++ "% <= ITE <= " ++ fmtFixed 1 (cutoffs.c2 * 100) ++ "%"⟩

/-! ### The input form -/

/-- One submission's worth of form values, one field per widget of the
`patient_data_form` (lines 36-82).  Widgets whose `value` / `min_value` /
`max_value` arguments are Python ints (`number_input` for age, place_new,
airway, initialrhythm_core) and the `selectbox`es over `[0, 1]` produce
ints, modelled as `ℤ`; the remaining `number_input`s produce floats,
modelled as `ℚ`.  Fields appear in the order the widgets are declared. -/
structure FormInput where
  age : ℤ
  sex : ℤ
  place_new : ℤ
  witnessed_core : ℤ
  bystander_core : ℤ
  responsetime : ℚ
  scenetohosptime : ℚ
  aed_core : ℤ
  airway : ℤ
  bosmin_core : ℤ
  initialrhythm_core : ℤ
  etco2_core : ℚ
  lactic : ℚ
  ph : ℚ
  hco3 : ℚ
  pco2 : ℚ
  be : ℚ
  cre : ℚ
  na : ℚ
  k : ℚ
deriving DecidableEq, Repr

/-- The form state when every widget still holds its hard-coded default
(`value=` arguments at lines 41-71; each `selectbox` defaults to its
first option, `0`). -/
def defaultForm : FormInput :=
  ⟨65, 0, 0, 0, 0, 5, 15, 0, 0, 0, 0, 0, 0, 7, 20, 40, 0, 1, 140, 4⟩

/-- The constraints the form widgets enforce on every submitted value:
`Age` has `min_value=0, max_value=120`; `Response Time` and `Scene to
Hospital Time` have `min_value=0.0`; and the five `selectbox` widgets
(`sex`, `witnessed_core`, `bystander_core`, `aed_core`, `bosmin_core`)
only offer the options `0` and `1`.  The other widgets are unconstrained. -/
def WidgetBounds (f : FormInput) : Prop :=
  0 ≤ f.age ∧ f.age ≤ 120 ∧
  (f.sex = 0 ∨ f.sex = 1) ∧
  0 ≤ f.responsetime ∧
  0 ≤ f.scenetohosptime ∧
  (f.witnessed_core = 0 ∨ f.witnessed_core = 1) ∧
  (f.bystander_core = 0 ∨ f.bystander_core = 1) ∧
  (f.aed_core = 0 ∨ f.aed_core = 1) ∧
  (f.bosmin_core = 0 ∨ f.bosmin_core = 1)

/-! ### Record assembly and column reindexing -/

/-- The 20 field names, in the order of the `input_data` dict literal at
lines 86-107 (which is also the order of the covariate list recorded in
the comment at line 75). -/
def inputFields : List String :=
  ["age", "sex", "responsetime", "scenetohosptime", "place_new",
   "witnessed_core", "bystander_core", "aed_core", "airway", "bosmin_core",
   "initialrhythm_core", "lactic", "ph", "hco3", "pco2", "be", "cre", "na",
   "k", "etco2_core"]

/-- The `input_data` dict built at lines 86-107: each field name maps to a
one-element column holding the corresponding form value (ints cast to the
common scalar type). -/
def buildRecord (f : FormInput) : List (String × List ℚ) :=
  [("age", [(f.age : ℚ)]),
   ("sex", [(f.sex : ℚ)]),
   ("responsetime", [f.responsetime]),
   ("scenetohosptime", [f.scenetohosptime]),
   ("place_new", [(f.place_new : ℚ)]),
   ("witnessed_core", [(f.witnessed_core : ℚ)]),
   ("bystander_core", [(f.bystander_core : ℚ)]),
   ("aed_core", [(f.aed_core : ℚ)]),
   ("airway", [(f.airway : ℚ)]),
   ("bosmin_core", [(f.bosmin_core : ℚ)]),
   ("initialrhythm_core", [(f.initialrhythm_core : ℚ)]),
   ("lactic", [f.lactic]),
   ("ph", [f.ph]),
   ("hco3", [f.hco3]),
   ("pco2", [f.pco2]),
   ("be", [f.be]),
   ("cre", [f.cre]),
   ("na", [f.na]),
   ("k", [f.k]),
   ("etco2_core", [f.etco2_core])]

/-- The column reindexing `df = df[covariates_list]` at line 112: select
the columns named by `cols`, in that order; pandas raises a `KeyError`
(here: `none`) as soon as a requested column is absent from the record. -/
def reindex (record : List (String × List ℚ)) : List String → Option (List (String × List ℚ))
  | [] => some []
  | c :: cs =>
    match record.lookup c with
    | none => none
    | some v => (reindex record cs).map (fun r => (c, v) :: r)

/-! ### Artifact loading (lines 11-27) -/

/-- The outcome of the top-level artifact-loading block: either the
session is stopped with the `st.error` message (followed by `st.stop()`,
line 27), or all four artifacts are available for the rest of the
session.  `M` and `I` are the opaque types of the unpickled model and
imputer. -/
inductive InitOutcome (M I : Type) where
  | stopped (msg : String)
  | ready (model : M) (covariatesList : List String) (cutoffs : Cutoffs) (imputer : I)

/-- `load_resources()` (lines 11-20): the four `joblib.load` calls run in
sequence — model, covariates, cutoffs, imputer — and the first exception
aborts the whole function. -/
def loadResources {M I : Type} (loadModel : Except String M)
    (loadCovariates : Except String (List String))
    (loadCutoffs : Except String Cutoffs)
    (loadImputer : Except String I) : Except String (M × List String × Cutoffs × I) := do
  let m ← loadModel
  let c ← loadCovariates
  let k ← loadCutoffs
  let i ← loadImputer
  return (m, c, k, i)

/-- The top-level `try/except` around `load_resources()` (lines 22-27):
on any exception the session shows `Error loading models: ...` and stops;
otherwise the four artifacts are bound for the rest of the session. -/
def appInit {M I : Type} (loadModel : Except String M)
    (loadCovariates : Except String (List String))
    (loadCutoffs : Except String Cutoffs)
    (loadImputer : Except String I) : InitOutcome M I :=
  match loadResources loadModel loadCovariates loadCutoffs loadImputer with
  | Except.error e => InitOutcome.stopped ("Error loading models: " ++ e)
  | Except.ok (m, c, k, i) => InitOutcome.ready m c k i

/-- Whether the script goes on to render the input form: `st.stop()` at
line 27 halts the script before the `st.form` block at line 36, so only
the `ready` outcome reaches it. -/
def rendersForm {M I : Type} : InitOutcome M I → Bool
  | InitOutcome.stopped _ => false
  | InitOutcome.ready _ _ _ _ => true

/-! ### The submission path (lines 84-154) -/

/-- What one submission ends in: an uncaught exception propagating out of
the script, the inline `st.error` of the `except` clause at lines
153-154, or the rendered result panel. -/
inductive SubmitOutcome where
  | uncaught (e : String)
  | inlineError (msg : String)
  | rendered (r : Rendered)
deriving DecidableEq, Repr

/-- The `if submitted:` block (lines 84-154): build the record, reindex
it to `covariates_list` (line 112; a missing column raises `KeyError`),
call `imputer.transform` (line 117) — both of these run OUTSIDE the
`try`, so their exceptions propagate — then, inside the `try` (lines
120-154), call `model.effect` and render; an exception there is caught
and shown as `Prediction failed: ...`.  `transform` and `effect` stand
for the opaque imputer and model calls, `X` for the imputed matrix type. -/
def runSubmission {X : Type} (form : FormInput) (covariatesList : List String)
    (transform : List (String × List ℚ) → Except String X)
    (effect : X → Except String ℚ)
    (cutoffs : Cutoffs) : SubmitOutcome :=
  match reindex (buildRecord form) covariatesList with
  | none => SubmitOutcome.uncaught "KeyError"
  | some df =>
    match transform df with
    | Except.error e => SubmitOutcome.uncaught e
    | Except.ok x =>
      match effect x with
      | Except.error e => SubmitOutcome.inlineError ("Prediction failed: " ++ e)
      | Except.ok itePred => SubmitOutcome.rendered (renderResult itePred cutoffs)

/-! ### Query-parameter overrides

The repository's second script version (not present under `src/`) lets
URL-style key/value parameters override the form defaults.  The
definitions below are modelled from the spec, which says: "A
supplementary path allows defaults to be overridden by externally
supplied key/value parameters (URL-style), with type coercion that falls
back to the hard-coded default on any parse failure." -/

/-- Decimal digit value of a character, if it is a digit. -/
def digitVal (ch : Char) : Option ℕ :=
  if '0' ≤ ch ∧ ch ≤ '9' then some (ch.toNat - '0'.toNat) else none

/-- Parse a nonempty string of decimal digits as a natural number. -/
def parseNatDigits (cs : List Char) : Option ℕ :=
  match cs with
  | [] => none
  | _ => cs.foldl (fun acc ch => do
      let a ← acc
      let d ← digitVal ch
      pure (a * 10 + d)) (some 0)

/-- Modelled from the spec: integer type coercion for an override
parameter (Python `int(s)`), an optional minus sign followed by decimal
digits. -/
def parseIntStr (s : String) : Option ℤ :=
  match s.data with
  | [] => none
  | '-' :: rest => (parseNatDigits rest).map (fun n => -(n : ℤ))
  | cs => (parseNatDigits cs).map (fun n => (n : ℤ))

/-- Magnitude of a decimal literal, `digits` or `digits.digits`. -/
def parseRatMag (s : String) : Option ℚ :=
  match s.splitOn "." with
  | [w] => (parseNatDigits w.data).map (fun n => (n : ℚ))
  | [w, fr] => do
    let ip ← parseNatDigits w.data
    let fd ← parseNatDigits fr.data
    pure ((ip : ℚ) + mkRat fd (10 ^ fr.length))
  | _ => none

/-- Modelled from the spec: float type coercion for an override
parameter (Python `float(s)`), an optional minus sign followed by a
decimal literal. -/
def parseRatStr (s : String) : Option ℚ :=
  match s.data with
  | '-' :: rest => (parseRatMag (String.mk rest)).map (fun q => -q)
  | _ => parseRatMag s

/-- Modelled from the spec: coerce one override parameter.  If the
parameter is absent the field keeps its hard-coded default; if present,
the value is parsed and any parse failure falls back to the hard-coded
default. -/
def coerceParam {α : Type} (parse : String → Option α) (defaultVal : α)
    (p : Option String) : α :=
  match p with
  | none => defaultVal
  | some s =>
    match parse s with
    | some v => v
    | none => defaultVal

/-- Modelled from the spec: the form state after applying URL-style
key/value overrides to every field's hard-coded default, integer fields
coerced with `parseIntStr` and float fields with `parseRatStr`. -/
def buildFormWithParams (params : String → Option String) : FormInput :=
  ⟨coerceParam parseIntStr 65 (params "age"),
   coerceParam parseIntStr 0 (params "sex"),
   coerceParam parseIntStr 0 (params "place_new"),
   coerceParam parseIntStr 0 (params "witnessed_core"),
   coerceParam parseIntStr 0 (params "bystander_core"),
   coerceParam parseRatStr 5 (params "responsetime"),
   coerceParam parseRatStr 15 (params "scenetohosptime"),
   coerceParam parseIntStr 0 (params "aed_core"),
   coerceParam parseIntStr 0 (params "airway"),
   coerceParam parseIntStr 0 (params "bosmin_core"),
   coerceParam parseIntStr 0 (params "initialrhythm_core"),
   coerceParam parseRatStr 0 (params "etco2_core"),
   coerceParam parseRatStr 0 (params "lactic"),
   coerceParam parseRatStr 7 (params "ph"),
   coerceParam parseRatStr 20 (params "hco3"),
   coerceParam parseRatStr 40 (params "pco2"),
   coerceParam parseRatStr 0 (params "be"),
   coerceParam parseRatStr 1 (params "cre"),
   coerceParam parseRatStr 140 (params "na"),
   coerceParam parseRatStr 4 (params "k")⟩

/-! ### Helper lemmas about `List.lookup` and `reindex` -/

theorem lookup_isSome_of_mem_keys {α β : Type} [BEq α] [LawfulBEq α]
    {record : List (α × β)} {c : α} (h : c ∈ record.map Prod.fst) :
    (record.lookup c).isSome := by
  induction record with
  | nil => simp at h
  | cons hd tl ih =>
    obtain ⟨a, b⟩ := hd
    simp only [List.map_cons, List.mem_cons] at h
    simp only [List.lookup]
    rcases h with h1 | h1
    · subst h1
      simp
    · cases hbeq : c == a
      · exact ih h1
      · simp

theorem lookup_eq_none_of_not_mem_keys {α β : Type} [BEq α] [LawfulBEq α]
    {record : List (α × β)} {c : α} (h : c ∉ record.map Prod.fst) :
    record.lookup c = none := by
  induction record with
  | nil => rfl
  | cons hd tl ih =>
    obtain ⟨a, b⟩ := hd
    simp only [List.map_cons, List.mem_cons, not_or] at h
    simp only [List.lookup]
    cases hbeq : c == a
    · exact ih h.2
    · exact absurd (by simpa using hbeq) h.1

theorem reindex_some_of_lookups {record : List (String × List ℚ)} {cols : List String}
    (h : ∀ c ∈ cols, (record.lookup c).isSome) :
    ∃ r, reindex record cols = some r ∧ r.map Prod.fst = cols ∧ r.length = cols.length := by
  induction cols with
  | nil => exact ⟨[], rfl, rfl, rfl⟩
  | cons c cs ih =>
    obtain ⟨v, hv⟩ := Option.isSome_iff_exists.mp (h c (List.mem_cons_self c cs))
    obtain ⟨r, hr, hfst, hlen⟩ := ih (fun x hx => h x (List.mem_cons_of_mem _ hx))
    refine ⟨(c, v) :: r, ?_, ?_, ?_⟩
    · simp [reindex, hv, hr]
    · simp [hfst]
    · simp [hlen]

theorem reindex_none_of_missing {record : List (String × List ℚ)} {cols : List String}
    {c : String} (hc : c ∈ cols) (hnone : record.lookup c = none) :
    reindex record cols = none := by
  induction cols with
  | nil => simp at hc
  | cons d ds ih =>
    rcases List.mem_cons.mp hc with h1 | h1
    · subst h1; simp [reindex, hnone]
    · simp only [reindex]
      cases hl : record.lookup d
      · rfl
      · simp [ih h1]

/-! ### Claim theorems -/

/-- Claim C1 (counterexample): the claim asserts that for every pair of
cutoffs, `ITE == upper` lands in the "no significant difference" middle
bucket; but with cutoffs `lower = 1`, `upper = 0` (an inverted pair) and
`ITE = 0 = upper`, the `elif ITE < lower` branch fires first and the code
returns the "do not give" recommendation, not the middle bucket. -/
theorem c1_counterexample :
    classify 0 1 0 = Recommendation.doNotGiveSodiumBicarbonate ∧
    Recommendation.doNotGiveSodiumBicarbonate ≠ Recommendation.noSignificantDifference := by
  decide

/-- Claim C1 (amended): provided the lower cutoff does not exceed the
upper cutoff (as holds for the shipped cutoffs `-0.04 ≤ 0.06`), the
recommendation is a pure function of the scalar ITE and the two cutoffs:
`ITE > upper` gives the "give treatment" recommendation, `ITE < lower`
the "do not give" recommendation, and everything in between — boundary
values `ITE = lower` and `ITE = upper` included — the "no significant
difference" middle bucket. -/
theorem c1_classification (ite lowerBound upperBound : ℚ)
    (h : lowerBound ≤ upperBound) :
    (ite > upperBound →
      classify ite lowerBound upperBound = Recommendation.giveSodiumBicarbonate) ∧
    (ite < lowerBound →
      classify ite lowerBound upperBound = Recommendation.doNotGiveSodiumBicarbonate) ∧
    (lowerBound ≤ ite → ite ≤ upperBound →
      classify ite lowerBound upperBound = Recommendation.noSignificantDifference) := by
  refine ⟨fun hgt => ?_, fun hlt => ?_, fun hge hle => ?_⟩
  · unfold classify
    rw [if_pos hgt]
  · unfold classify
    rw [if_neg (not_lt.mpr (le_of_lt (lt_of_lt_of_le hlt h))), if_pos hlt]
  · unfold classify
    rw [if_neg (not_lt.mpr hle), if_neg (not_lt.mpr hge)]

/-- Claim C1 (witness): with cutoffs `lower = 1 ≤ 2 = upper` and
`ITE = 2` sitting exactly on the upper boundary, the classification is
the middle bucket. -/
theorem c1_witness :
    (1 : ℚ) ≤ 2 ∧ classify 2 1 2 = Recommendation.noSignificantDifference :=
  ⟨by norm_num, (c1_classification 2 1 2 (by norm_num)).2.2 (by norm_num) le_rfl⟩

/-- Claim C4: for every submission and every covariate-name list that is
a permutation of the 20 fixed field names, the reindexed one-row record
passed on to the imputer succeeds and has its columns exactly in the
covariate-name list's order, with equal field count (20). -/
theorem c4_column_order (f : FormInput) (cols : List String)
    (h : cols.Perm inputFields) :
    ∃ r, reindex (buildRecord f) cols = some r ∧
      r.map Prod.fst = cols ∧ r.length = cols.length ∧ cols.length = 20 := by
  have hsub : ∀ c ∈ cols, ((buildRecord f).lookup c).isSome := by
    intro c hc
    have hkeys : (buildRecord f).map Prod.fst = inputFields := rfl
    exact lookup_isSome_of_mem_keys (hkeys ▸ h.subset hc)
  obtain ⟨r, hr, hfst, hlen⟩ := reindex_some_of_lookups hsub
  exact ⟨r, hr, hfst, hlen, by rw [h.length_eq]; rfl⟩

/-- Claim C4 (witness): with the covariate list equal to the field-name
list itself (a permutation), reindexing the default submission succeeds
with columns in that order and 20 fields. -/
theorem c4_witness :
    ∃ r, reindex (buildRecord defaultForm) inputFields = some r ∧
      r.map Prod.fst = inputFields ∧ r.length = inputFields.length ∧
      inputFields.length = 20 :=
  c4_column_order defaultForm inputFields (List.Perm.refl _)

/-- Claim C5: the rendered result panel depends on the four-element
cutoff sequence only through its second and third entries: two cutoff
sequences agreeing at indices 1 and 2 yield identical recommendations
and threshold messages for every ITE prediction. -/
theorem c5_only_middle_cutoffs_matter (ite : ℚ) (k k' : Cutoffs)
    (h1 : k.c1 = k'.c1) (h2 : k.c2 = k'.c2) :
    renderResult ite k = renderResult ite k' := by
  unfold renderResult
  rw [h1, h2]

/-- Claim C5 (witness): the shipped cutoffs and a sequence with the same
middle entries but different first and fourth entries render identically
at `ITE = 0`. -/
theorem c5_witness :
    renderResult 0 shippedCutoffs =
      renderResult 0 ⟨0, mkRat (-4) 100, mkRat 6 100, 9⟩ :=
  c5_only_middle_cutoffs_matter 0 _ _ (by decide) (by decide)

/-- Claim C6: with a predicted ITE of `0.10` and cutoffs whose lower
bound is `-0.04` and upper bound `0.06`, the result panel shows the
"give treatment" recommendation and displays the ITE as `10.00%`. -/
theorem c6_give_at_ten_percent (k : Cutoffs)
    (h1 : k.c1 = mkRat (-4) 100) (h2 : k.c2 = mkRat 6 100) :
    (renderResult (mkRat 1 10) k).bucket = Recommendation.giveSodiumBicarbonate ∧
    (renderResult (mkRat 1 10) k).metric = "10.00%" := by
  have hm : mkRat 1 10 * 100 = (10 : ℚ) := by norm_num [Rat.mkRat_eq_div]
  have hgt : mkRat 1 10 > k.c2 := by rw [h2]; decide
  unfold renderResult
  rw [if_pos hgt, hm]
  refine ⟨rfl, ?_⟩
  show fmtFixed 2 (10 : ℚ) ++ "%" = "10.00%"
  decide

/-- Claim C6 (witness): the shipped cutoffs have the stated bounds, so
`ITE = 0.10` renders the give recommendation with metric `10.00%`. -/
theorem c6_witness :
    (renderResult (mkRat 1 10) shippedCutoffs).bucket =
      Recommendation.giveSodiumBicarbonate ∧
    (renderResult (mkRat 1 10) shippedCutoffs).metric = "10.00%" :=
  c6_give_at_ten_percent shippedCutoffs (by decide) (by decide)

/-- Claim C7: with a predicted ITE of `-0.10` and cutoffs whose lower
bound is `-0.04` and upper bound `0.06`, the result panel shows the
"do not give" recommendation and displays the ITE as `-10.00%`. -/
theorem c7_do_not_give_at_minus_ten_percent (k : Cutoffs)
    (h1 : k.c1 = mkRat (-4) 100) (h2 : k.c2 = mkRat 6 100) :
    (renderResult (mkRat (-1) 10) k).bucket = Recommendation.doNotGiveSodiumBicarbonate ∧
    (renderResult (mkRat (-1) 10) k).metric = "-10.00%" := by
  have hm : mkRat (-1) 10 * 100 = (-10 : ℚ) := by norm_num [Rat.mkRat_eq_div]
  have hngt : ¬ mkRat (-1) 10 > k.c2 := by rw [h2]; decide
  have hlt : mkRat (-1) 10 < k.c1 := by rw [h1]; decide
  unfold renderResult
  rw [if_neg hngt, if_pos hlt, hm]
  refine ⟨rfl, ?_⟩
  show fmtFixed 2 (-10 : ℚ) ++ "%" = "-10.00%"
  decide

/-- Claim C7 (witness): the shipped cutoffs have the stated bounds, so
`ITE = -0.10` renders the do-not-give recommendation with metric
`-10.00%`. -/
theorem c7_witness :
    (renderResult (mkRat (-1) 10) shippedCutoffs).bucket =
      Recommendation.doNotGiveSodiumBicarbonate ∧
    (renderResult (mkRat (-1) 10) shippedCutoffs).metric = "-10.00%" :=
  c7_do_not_give_at_minus_ten_percent shippedCutoffs (by decide) (by decide)

/-- Claim C2 (counterexample): the claim asserts that after the
artifacts load, no step of the submission path other than the model's
effect call can raise an uncaught exception; but `imputer.transform`
(line 117) runs before the `try` block (line 120), so a transform
exception — here modelled as a failing transform on the default
submission — propagates uncaught instead of becoming an inline error. -/
theorem c2_counterexample :
    runSubmission defaultForm inputFields
        (fun _ => (Except.error "transform failed" : Except String Unit))
        (fun _ => Except.ok 0) shippedCutoffs =
      SubmitOutcome.uncaught "transform failed" := by
  decide

/-- Claim C2 (amended): once the column reindexing and the imputer's
transform have succeeded, the only remaining failure point of the
submission path is the model's effect call, and every exception it
raises is caught and shown as the inline `Prediction failed: ...` error
(the session state is untouched, so re-submission stays possible); the
reindexing and the transform themselves, however, run outside the
`try/except` and their exceptions propagate uncaught. -/
theorem c2_inference_errors_caught {X : Type} (f : FormInput) (cols : List String)
    (transform : List (String × List ℚ) → Except String X)
    (effect : X → Except String ℚ) (cutoffs : Cutoffs)
    (df : List (String × List ℚ)) (x : X)
    (hdf : reindex (buildRecord f) cols = some df)
    (hx : transform df = Except.ok x) :
    (∀ e, effect x = Except.error e →
      runSubmission f cols transform effect cutoffs =
        SubmitOutcome.inlineError ("Prediction failed: " ++ e)) ∧
    (∀ ite, effect x = Except.ok ite →
      runSubmission f cols transform effect cutoffs =
        SubmitOutcome.rendered (renderResult ite cutoffs)) ∧
    (∀ e, runSubmission f cols transform effect cutoffs ≠ SubmitOutcome.uncaught e) := by
  refine ⟨fun e he => ?_, fun ite hi => ?_, fun e hcontra => ?_⟩
  · simp [runSubmission, hdf, hx, he]
  · simp [runSubmission, hdf, hx, hi]
  · rw [runSubmission, hdf] at hcontra
    simp only [hx] at hcontra
    revert hcontra
    cases effect x <;> simp

/-- Claim C2 (witness): with an empty covariate list (reindex trivially
succeeds), a transform returning a unit matrix, and a model whose effect
call raises, the submission ends in the inline error. -/
theorem c2_witness :
    runSubmission defaultForm [] (fun _ => (Except.ok () : Except String Unit))
        (fun _ => Except.error "model broke") shippedCutoffs =
      SubmitOutcome.inlineError ("Prediction failed: " ++ "model broke") :=
  (c2_inference_errors_caught defaultForm [] _ _ shippedCutoffs [] () rfl rfl).1
    "model broke" rfl

/-- Claim C3: for every override parameter, a value that parses replaces
the field's hard-coded default, a value that fails type coercion leaves
the field at its hard-coded default (input collection is a total
function, so it cannot crash), and an absent parameter also leaves the
default; instantiated at the `age` field of the form built from
URL-style parameters. -/
theorem c3_param_overrides (params : String → Option String) (p : Option String) :
    (∀ {α : Type} (parse : String → Option α) (d : α) (s : String) (v : α),
      p = some s → parse s = some v → coerceParam parse d p = v) ∧
    (∀ {α : Type} (parse : String → Option α) (d : α) (s : String),
      p = some s → parse s = none → coerceParam parse d p = d) ∧
    (∀ {α : Type} (parse : String → Option α) (d : α),
      p = none → coerceParam parse d p = d) ∧
    (∀ (s : String) (v : ℤ), params "age" = some s → parseIntStr s = some v →
      (buildFormWithParams params).age = v) ∧
    (∀ s : String, params "age" = some s → parseIntStr s = none →
      (buildFormWithParams params).age = 65) := by
  refine ⟨?_, ?_, ?_, ?_, ?_⟩
  · intro α parse d s v hp hv
    subst hp
    simp [coerceParam, hv]
  · intro α parse d s hp hv
    subst hp
    simp [coerceParam, hv]
  · intro α parse d hp
    subst hp
    rfl
  · intro s v hp hv
    show coerceParam parseIntStr 65 (params "age") = v
    rw [hp]
    simp [coerceParam, hv]
  · intro s hp hv
    show coerceParam parseIntStr 65 (params "age") = 65
    rw [hp]
    simp [coerceParam, hv]

/-- Claim C3 (witness): an override `age=41` replaces the default 65 by
41, while the malformed override `age=abc` fails integer coercion and
the field keeps its hard-coded default 65. -/
theorem c3_witness :
    (buildFormWithParams (fun key => if key = "age" then some "41" else none)).age = 41 ∧
    (buildFormWithParams (fun key => if key = "age" then some "abc" else none)).age = 65 :=
  ⟨(c3_param_overrides (fun key => if key = "age" then some "41" else none) none).2.2.2.1
      "41" 41 (by decide) (by decide),
   (c3_param_overrides (fun key => if key = "age" then some "abc" else none) none).2.2.2.2
      "abc" (by decide) (by decide)⟩

/-- Claim C8: if any of the four artifact loads raises, the session
shows the `Error loading models: ...` message and stops, and the stopped
session never renders the form; if all four loads succeed, all four
artifacts are bound and available to every subsequent submission. -/
theorem c8_artifact_loading (M I : Type) (loadModel : Except String M)
    (loadCovariates : Except String (List String))
    (loadCutoffs : Except String Cutoffs) (loadImputer : Except String I) :
    ((∃ e, loadModel = Except.error e ∨ loadCovariates = Except.error e ∨
        loadCutoffs = Except.error e ∨ loadImputer = Except.error e) →
      ∃ msg, appInit loadModel loadCovariates loadCutoffs loadImputer =
          InitOutcome.stopped msg ∧
        rendersForm (appInit loadModel loadCovariates loadCutoffs loadImputer) = false) ∧
    (∀ (m : M) (c : List String) (k : Cutoffs) (i : I),
      loadModel = Except.ok m → loadCovariates = Except.ok c →
      loadCutoffs = Except.ok k → loadImputer = Except.ok i →
      appInit loadModel loadCovariates loadCutoffs loadImputer =
        InitOutcome.ready m c k i) := by
  constructor
  · rintro ⟨e, he⟩
    cases loadModel with
    | error e1 => exact ⟨"Error loading models: " ++ e1, rfl, rfl⟩
    | ok m =>
      cases loadCovariates with
      | error e2 => exact ⟨"Error loading models: " ++ e2, rfl, rfl⟩
      | ok c =>
        cases loadCutoffs with
        | error e3 => exact ⟨"Error loading models: " ++ e3, rfl, rfl⟩
        | ok k =>
          cases loadImputer with
          | error e4 => exact ⟨"Error loading models: " ++ e4, rfl, rfl⟩
          | ok i =>
            rcases he with h | h | h | h <;> exact Except.noConfusion h
  · intro m c k i hm hc hk hi
    subst hm
    subst hc
    subst hk
    subst hi
    rfl

/-- Claim C8 (witness): a failing model load stops the session with a
visible error, and a fully successful load makes all four artifacts
available. -/
theorem c8_witness :
    (∃ msg, appInit (Except.error "file not found" : Except String ℕ)
        (Except.ok inputFields) (Except.ok shippedCutoffs) (Except.ok (0 : ℕ)) =
          InitOutcome.stopped msg ∧
      rendersForm (appInit (Except.error "file not found" : Except String ℕ)
        (Except.ok inputFields) (Except.ok shippedCutoffs) (Except.ok (0 : ℕ))) = false) ∧
    appInit (Except.ok (7 : ℕ)) (Except.ok inputFields) (Except.ok shippedCutoffs)
        (Except.ok (5 : ℕ)) =
      InitOutcome.ready 7 inputFields shippedCutoffs 5 :=
  ⟨(c8_artifact_loading ℕ ℕ (Except.error "file not found") (Except.ok inputFields)
      (Except.ok shippedCutoffs) (Except.ok 0)).1 ⟨"file not found", Or.inl rfl⟩,
   (c8_artifact_loading ℕ ℕ (Except.ok 7) (Except.ok inputFields)
      (Except.ok shippedCutoffs) (Except.ok 5)).2 7 inputFields shippedCutoffs 5
      rfl rfl rfl rfl⟩

/-- Claim C9: every assembled record has exactly the 20 fixed field
names as its columns, in the dict-literal order, each mapped to a
one-element column, whatever values were entered; and a covariate list
containing any name outside this set makes the column reindexing fail
(`none`, pandas `KeyError`) rather than produce a row. -/
theorem c9_fixed_schema (f : FormInput) :
    (buildRecord f).map Prod.fst = inputFields ∧
    (∀ p ∈ buildRecord f, p.2.length = 1) ∧
    (∀ (cols : List String) (c : String), c ∈ cols → c ∉ inputFields →
      reindex (buildRecord f) cols = none) := by
  refine ⟨rfl, ?_, ?_⟩
  · intro p hp
    fin_cases hp <;> rfl
  · intro cols c hc hnot
    have hkeys : (buildRecord f).map Prod.fst = inputFields := rfl
    exact reindex_none_of_missing hc
      (lookup_eq_none_of_not_mem_keys (hkeys ▸ hnot))

/-- Claim C9 (witness): a covariate list containing the foreign name
`bogus` makes reindexing the default submission fail. -/
theorem c9_witness :
    reindex (buildRecord defaultForm) ["bogus"] = none :=
  (c9_fixed_schema defaultForm).2.2 ["bogus"] "bogus" (by decide) (by decide)

/-- Claim C10: every submission whose values satisfy the widget
constraints — which is all of them, since the widgets enforce their
`min_value` / `max_value` / option sets — yields a record whose `age`
column is an integer in `[0, 120]`, whose `responsetime` and
`scenetohosptime` columns are non-negative, and whose five binary
columns are each exactly 0 or 1, so these bounds hold for the record
handed to the imputer and model on every inference call. -/
theorem c10_submitted_records_in_bounds (f : FormInput) (h : WidgetBounds f) :
    ((buildRecord f).lookup "age" = some [(f.age : ℚ)] ∧
      0 ≤ (f.age : ℚ) ∧ (f.age : ℚ) ≤ 120) ∧
    ((buildRecord f).lookup "responsetime" = some [f.responsetime] ∧
      0 ≤ f.responsetime) ∧
    ((buildRecord f).lookup "scenetohosptime" = some [f.scenetohosptime] ∧
      0 ≤ f.scenetohosptime) ∧
    ((buildRecord f).lookup "sex" = some [(f.sex : ℚ)] ∧
      ((f.sex : ℚ) = 0 ∨ (f.sex : ℚ) = 1)) ∧
    ((buildRecord f).lookup "witnessed_core" = some [(f.witnessed_core : ℚ)] ∧
      ((f.witnessed_core : ℚ) = 0 ∨ (f.witnessed_core : ℚ) = 1)) ∧
    ((buildRecord f).lookup "bystander_core" = some [(f.bystander_core : ℚ)] ∧
      ((f.bystander_core : ℚ) = 0 ∨ (f.bystander_core : ℚ) = 1)) ∧
    ((buildRecord f).lookup "aed_core" = some [(f.aed_core : ℚ)] ∧
      ((f.aed_core : ℚ) = 0 ∨ (f.aed_core : ℚ) = 1)) ∧
    ((buildRecord f).lookup "bosmin_core" = some [(f.bosmin_core : ℚ)] ∧
      ((f.bosmin_core : ℚ) = 0 ∨ (f.bosmin_core : ℚ) = 1)) := by
  obtain ⟨h1, h2, h3, h4, h5, h6, h7, h8, h9⟩ := h
  have hbin : ∀ x : ℤ, x = 0 ∨ x = 1 → (x : ℚ) = 0 ∨ (x : ℚ) = 1 := by
    rintro x (rfl | rfl)
    · exact Or.inl (by norm_num)
    · exact Or.inr (by norm_num)
  refine ⟨⟨rfl, by exact_mod_cast h1, by exact_mod_cast h2⟩,
    ⟨rfl, h4⟩, ⟨rfl, h5⟩, ⟨rfl, hbin _ h3⟩, ⟨rfl, hbin _ h6⟩,
    ⟨rfl, hbin _ h7⟩, ⟨rfl, hbin _ h8⟩, ⟨rfl, hbin _ h9⟩⟩

/-- Claim C10 (witness): the default submission satisfies the widget
constraints, and its record's `age` column is in `[0, 120]`. -/
theorem c10_witness :
    (buildRecord defaultForm).lookup "age" = some [((65 : ℤ) : ℚ)] ∧
    0 ≤ ((65 : ℤ) : ℚ) ∧ ((65 : ℤ) : ℚ) ≤ 120 :=
  (c10_submitted_records_in_bounds defaultForm (by unfold WidgetBounds; decide)).1

end ITEApp
